import Mathlib

/-!
Shallow embedding of the movie_alert utility (src/main.rs) and proofs about
its behaviour. The HTTP transport, JSON text encoding and the OS browser
launch are external collaborators; they are modelled as oracle inputs
(transport results, decode results) and as a JSON value universe,
respectively. Machine integers (u32) are modelled as Nat with explicit
bounds where they matter.
-/

namespace MovieAlert

/-! ## Data model (structs from src/main.rs) -/

/-- Genre record: `struct Genre { id: u32, name: String }`. -/
structure Genre where
  id : Nat
  name : String
deriving DecidableEq, Repr

/-- Genre list response: `struct GenreReponse { genres: Vec<Genre> }`
(the misspelling is the source spelling). -/
structure GenreReponse where
  genres : List Genre
deriving DecidableEq, Repr

/-- Movie record from src/main.rs. -/
structure Movie where
  poster_path : Option String
  adult : Bool
  overview : String
  release_date : String
  genre_ids : List Nat
  id : Nat
  title : String
deriving DecidableEq, Repr

/-- Date range of an upcoming-movies page: `struct Dates`. -/
structure Dates where
  maximum : String
  minimum : String
deriving DecidableEq, Repr

/-- One page of the upcoming endpoint: `struct UpComingMovieResponse`. -/
structure UpComingMovieResponse where
  page : Nat
  results : List Movie
  dates : Dates
  total_pages : Nat
  total_results : Nat
deriving DecidableEq, Repr

/-- Error taxonomy: `enum AppError` from src/main.rs. Opaque external causes
(roadrunner errors, io errors, serde errors, env errors) are modelled as
strings. -/
inductive AppError where
  | APIKeyError (cause : String)
  | RestClientError (msg : String) (cause : String)
  | GenreIdNotFoundError (name : String)
  | HomeDirectoryError
  | SerdeJsonSerializeError (cause : String)
  | SerdeJsonDeserializeError (cause : String)
  | IOError (cause : String)
  | EnvLogError (cause : String)
  | ReactorInitializeError (cause : String)
deriving DecidableEq, Repr

/-! ## JSON value universe

JSON text (de)serialisation itself is the serde_json external collaborator;
files store either a parsed JSON value or malformed bytes. -/

/-- JSON values, as serde_json would parse them; numbers are modelled as
integers (the program only ever stores u32 ids). -/
inductive Json where
  | null
  | bool (b : Bool)
  | num (n : Int)
  | str (s : String)
  | arr (xs : List Json)
  | obj (kvs : List (String × Json))
deriving Repr

/-- Content of a file on disk: a valid JSON document or malformed bytes. -/
inductive FileContent where
  | json (v : Json)
  | invalid
deriving Repr

/-- State of the data-file path in the filesystem. -/
inductive FileState where
  | absent
  | directory
  | file (content : FileContent)
deriving Repr

/-- Deserialisation of one JSON value into a u32 id, as serde_json does when
deserialising into `HashSet<u32>` elements. -/
def jsonToId : Json → Except String Nat
  | .num n => if 0 ≤ n ∧ n < 4294967296 then .ok n.toNat else .error "invalid value: integer out of range for u32"
  | _ => .error "invalid type: expected u32"

/-- Deserialise a list of JSON values into a list of ids, failing on the
first bad element. -/
def parseIds : List Json → Except String (List Nat)
  | [] => .ok []
  | x :: xs =>
    match jsonToId x with
    | .error e => .error e
    | .ok n =>
      match parseIds xs with
      | .error e => .error e
      | .ok ns => .ok (n :: ns)

/-- Deserialisation of a file content into a `HashSet<u32>`
(`serde_json::from_reader::<_, HashSet<u32>>`): the document must be a JSON
array of u32 numbers; the set is built from its elements. -/
def parseIdSet : FileContent → Except String (Finset Nat)
  | .json (.arr xs) => (parseIds xs).map List.toFinset
  | .json _ => .error "invalid type: expected a sequence"
  | .invalid => .error "expected value"

/-- Serialisation of a `HashSet<u32>` given in its iteration order `iter`
(`serde_json::to_writer` writes the set as a JSON array of numbers). -/
def encodeIdSet (iter : List Nat) : FileContent :=
  .json (.arr (iter.map fun (n : Nat) => Json.num (n : Int)))

/-- Embedding of `load_opened_movie_set` (src/main.rs lines 206-218): when
the path is a regular file the content is deserialised, a deserialisation
failure becoming `SerdeJsonDeserializeError`; otherwise the empty set is
returned. -/
def load_opened_movie_set (st : FileState) : Except AppError (Finset Nat) :=
  match st with
  | .file c =>
    match parseIdSet c with
    | .ok s => .ok s
    | .error e => .error (.SerdeJsonDeserializeError e)
  | _ => .ok ∅

/-- Embedding of `save_opened_movie_set` (src/main.rs lines 220-229): create
the file (failure -> `IOError` via the `From` impl), serialise the set in
iteration order `iter`, flush (failure -> `IOError`); on success the file
holds the encoded set. -/
def save_opened_movie_set (iter : List Nat) (createResult flushResult : Except String Unit) :
    Except AppError FileState :=
  match createResult with
  | .error e => .error (.IOError e)
  | .ok _ =>
    match flushResult with
    | .error e => .error (.IOError e)
    | .ok _ => .ok (.file (encodeIdSet iter))

/-! ## HashMap model

The genre map is a `HashMap<u32, String>`; it is modelled as an association
list whose order stands for the (arbitrary) iteration order, with
`insert`/`get` having HashMap semantics (insert replaces the value of an
existing key). -/

/-- Map insertion: replaces the value of an existing key in place, appends a
new key at the end of the iteration order. -/
def hashInsert (m : List (Nat × String)) (k : Nat) (v : String) : List (Nat × String) :=
  if m.any (fun kv => kv.1 == k) then
    m.map (fun kv => if kv.1 == k then (k, v) else kv)
  else
    m ++ [(k, v)]

/-- Map lookup (`HashMap::get`). -/
def hashGet (m : List (Nat × String)) (k : Nat) : Option String :=
  (m.find? (fun kv => kv.1 == k)).map (·.2)

/-! ## Genre catalog loader -/

/-- Result of a Rust expression that may panic: `.unwrap()` on an `Err`
aborts the process instead of producing a value. -/
inductive Unwrapped (α : Type) where
  | value (a : α)
  | panicked
deriving Repr

/-- Embedding of `retrieve_genre_and_convert_to_map` (src/main.rs lines
277-301): the transport call and the typed decode are both `.unwrap()`ed, so
either failure panics; on success the genres are folded into a map. The
transport result and the decoder are oracle inputs standing for the HTTP
and serde collaborators. -/
def retrieve_genre_and_convert_to_map (transport : Except String String)
    (decode : String → Except String GenreReponse) : Unwrapped (List (Nat × String)) :=
  match transport with
  | .error _ => .panicked
  | .ok raw =>
    match decode raw with
    | .error _ => .panicked
    | .ok resp => .value (resp.genres.foldl (fun m g => hashInsert m g.id g.name) [])

/-- Embedding of `get_genre_id_by_name` (src/main.rs lines 268-275): filter
the map entries by exact name match, take the last id, error when none. -/
def get_genre_id_by_name (genre_name : String) (genre_map : List (Nat × String)) :
    Except AppError Nat :=
  match ((genre_map.filter (fun kv => kv.2 == genre_name)).map (·.1)).getLast? with
  | some id => .ok id
  | none => .error (.GenreIdNotFoundError genre_name)

/-! ## Genre filter -/

/-- Embedding of `get_upcoming_movies_by_genre_id` (src/main.rs lines
257-266): keep the movies whose `genre_ids` contains `genre_id` (the source
tests `find(..).is_some()` via a match). -/
def get_upcoming_movies_by_genre_id (genre_id : Nat) (movies : List Movie) : List Movie :=
  movies.filter (fun movie =>
    match movie.genre_ids.find? (fun i => i == genre_id) with
    | some _ => true
    | none => false)

/-! ## Notifier -/

/-- Embedding of `get_genre_name_from_ids` (src/main.rs lines 303-321): map
each id through the map, then fold with a string accumulator and an
`is_first` flag; a resolved name is appended, preceded by ", " unless the
flag is set; the flag is cleared after every element, resolved or not. -/
def get_genre_name_from_ids (ids : List Nat) (genre_map : List (Nat × String)) : String :=
  ((ids.map (fun i => hashGet genre_map i)).foldl
    (fun acc r =>
      match r with
      | some s => ((if acc.2 then acc.1 else acc.1 ++ ", ") ++ s, false)
      | none => (acc.1, false))
    ("", true)).1

/-- Rendering of genre names as the spec words it: map each id through the
map, silently skip ids with no entry, join the resolved names with ", " in
original id order. Stated from the spec for comparison with
`get_genre_name_from_ids`. -/
def specGenreJoin (ids : List Nat) (genre_map : List (Nat × String)) : String :=
  String.intercalate ", " (ids.filterMap (hashGet genre_map))

/-- Base URL constant `TMD_MOVIE_URL_BASE`. -/
def TMD_MOVIE_URL_BASE : String := "https://www.themoviedb.org/movie"

/-- URL built for a movie: base + "/" + id. -/
def movieUrl (id : Nat) : String :=
  TMD_MOVIE_URL_BASE ++ "/" ++ toString id

/-- Observable event of the notifier loop: the printed summary, the
"URL was opened" indicator, or a browser launch (recorded with the id of
the movie whose URL is launched). -/
inductive Event where
  | summary (title genres rdate url : String)
  | alreadyOpened
  | launch (id : Nat) (url : String)
deriving DecidableEq, Repr

/-- Embedding of `process_found_movies` (src/main.rs lines 231-255): for
each movie in order, print the summary; if the id is in the opened set,
print the indicator; otherwise spawn the browser (fire-and-forget) and
insert the id. Returns the event trace and the final opened set. -/
def process_found_movies (movies : List Movie) (genre_map : List (Nat × String))
    (opened : Finset Nat) : List Event × Finset Nat :=
  match movies with
  | [] => ([], opened)
  | m :: ms =>
    let url := movieUrl m.id
    let hd := Event.summary m.title (get_genre_name_from_ids m.genre_ids genre_map)
      m.release_date url
    if m.id ∈ opened then
      let rest := process_found_movies ms genre_map opened
      (hd :: Event.alreadyOpened :: rest.1, rest.2)
    else
      let rest := process_found_movies ms genre_map (insert m.id opened)
      (hd :: Event.launch m.id url :: rest.1, rest.2)

/-- Number of browser launches for the movie id `i` in an event trace. -/
def countLaunch (evs : List Event) (i : Nat) : Nat :=
  evs.countP (fun e =>
    match e with
    | .launch j _ => j == i
    | _ => false)

/-! ## Paginated collection fetcher -/

/-- Error message of a failed transport call for a page (src/main.rs lines
359-361). -/
def pageTransportErrMsg (page : Nat) : String :=
  "Error: cannot get upcoming movies for page " ++ toString page

/-- Error message of an undecodable upcoming-page body (src/main.rs lines
368-370). -/
def pageParseErrMsg : String :=
  "Error: cannot parse upcoming movie response to json"

/-- Embedding of `retrieve_upcoming_movies_by_page` (src/main.rs lines
349-373): a transport failure is mapped to `RestClientError` with a message
naming the page; a decode failure is mapped to `RestClientError` with a
fixed parse message. `transport` and `decode` are oracle inputs for the
HTTP and serde collaborators. -/
def retrieve_upcoming_movies_by_page (transport : Nat → Except String String)
    (decode : String → Except String UpComingMovieResponse) (page : Nat) :
    Except AppError UpComingMovieResponse :=
  match transport page with
  | .error e => .error (.RestClientError (pageTransportErrMsg page) e)
  | .ok raw =>
    match decode raw with
    | .error e => .error (.RestClientError pageParseErrMsg e)
    | .ok r => .ok r

/-- Loop of `retrieve_all_upcoming_movies` over the remaining page indices
(`for p in 2..(total_pages + 1)` with `try!`): fetch each page in order,
appending its results; the first failure aborts the loop. The returned list
records which pages were requested. -/
def fetchLoop (fetch : Nat → Except AppError UpComingMovieResponse) :
    List Nat → List Movie → List Nat × Except AppError (List Movie)
  | [], acc => ([], .ok acc)
  | p :: ps, acc =>
    match fetch p with
    | .error e => ([p], .error e)
    | .ok r =>
      let rest := fetchLoop fetch ps (acc ++ r.results)
      (p :: rest.1, rest.2)

/-- Embedding of `retrieve_all_upcoming_movies` (src/main.rs lines 323-347):
fetch page 1, read `total_pages` and the date range from it, then fetch
pages 2 through `total_pages` inclusive, appending each page's results.
Returns the request log alongside the result. -/
def retrieve_all_upcoming_movies (fetch : Nat → Except AppError UpComingMovieResponse) :
    List Nat × Except AppError (List Movie × String × String) :=
  match fetch 1 with
  | .error e => ([1], .error e)
  | .ok first =>
    let rest := fetchLoop fetch (List.range' 2 (first.total_pages - 1)) first.results
    (1 :: rest.1, rest.2.map (fun movies => (movies, first.dates.minimum, first.dates.maximum)))

/-- Substring test on the underlying character lists (used to state that an
error message names a page number). -/
def strContains (s sub : String) : Bool :=
  (List.range (s.data.length + 1)).any (fun i => sub.data.isPrefixOf (s.data.drop i))

/-- The message of an error identifies a page when it contains the decimal
representation of the page number. -/
def msgIdentifiesPage (msg : String) (page : Nat) : Prop :=
  strContains msg (toString page) = true

/-! ## Concrete sample data -/

/-- A sample animation movie with the given id. -/
def sampleMovie (n : Nat) : Movie :=
  { poster_path := none, adult := false, overview := "An overview",
    release_date := "2026-01-15", genre_ids := [16], id := n, title := "Sample" }

/-- A sample upcoming page (two pages in total). -/
def samplePage (p : Nat) : UpComingMovieResponse :=
  { page := p, results := [sampleMovie (100 + p)],
    dates := { maximum := "2026-01-31", minimum := "2026-01-01" },
    total_pages := 2, total_results := 2 }

/-- A fetch oracle where every page succeeds with `samplePage`. -/
def sampleFetch (p : Nat) : Except AppError UpComingMovieResponse :=
  .ok (samplePage p)

/-- A first page reporting two total pages. -/
def cexPage1 : UpComingMovieResponse :=
  { page := 1, results := [sampleMovie 101],
    dates := { maximum := "2026-01-31", minimum := "2026-01-01" },
    total_pages := 2, total_results := 2 }

/-- A transport oracle returning a distinct body per page. -/
def cexTransport : Nat → Except String String :=
  fun p => .ok ("body" ++ toString p)

/-- A decoder accepting only the body of page 1. -/
def cexDecode : String → Except String UpComingMovieResponse :=
  fun raw => if raw = "body1" then .ok cexPage1
             else .error "expected struct UpComingMovieResponse"

/-- A transport oracle failing exactly on page 2. -/
def failTransport2 : Nat → Except String String :=
  fun p => if p = 2 then .error "connection reset" else .ok ("body" ++ toString p)

/-- A genre decoder accepting only the expected body. -/
def sampleGenreDecode : String → Except String GenreReponse :=
  fun raw => if raw = "genres-body" then .ok { genres := [{ id := 16, name := "Animation" }] }
             else .error "expected struct GenreReponse"

/-- A single upcoming page holding one animation movie. -/
def onePage : UpComingMovieResponse :=
  { page := 1, results := [sampleMovie 100],
    dates := { maximum := "2026-01-31", minimum := "2026-01-01" },
    total_pages := 1, total_results := 1 }

/-- A page decoder accepting only the body of page 1. -/
def okPageDecode : String → Except String UpComingMovieResponse :=
  fun raw => if raw = "body1" then .ok onePage
             else .error "expected struct UpComingMovieResponse"

/-! ## Orchestrator -/

/-- Oracle inputs of one run: results of the external collaborators. -/
structure World where
  reactorInit : Except String Unit
  loggerInit : Except String Unit
  homeDir : Option String
  apiKeyVar : Except String String
  genreTransport : Except String String
  genreDecode : String → Except String GenreReponse
  pageTransport : Nat → Except String String
  pageDecode : String → Except String UpComingMovieResponse
  dataFile : FileState
  createResult : Except String Unit
  flushResult : Except String Unit

/-- Outcome of `process()`: normal return, an error value, or a panic
(an `unwrap` on a failed result aborts the process). -/
inductive RunOutcome where
  | ok
  | err (e : AppError)
  | panicked
deriving DecidableEq, Repr

/-- Embedding of `process` (src/main.rs lines 151-204), following the
`and_then` chain: reactor init, logger init, home directory, API key, genre
map (panics on fetch or decode failure), genre-id lookup, upcoming fetch
(the source `.unwrap()`s its result, so a failure panics), filter, seen-set
load, notify, seen-set save. -/
def process (w : World) : RunOutcome :=
  match w.reactorInit with
  | .error e => .err (.ReactorInitializeError e)
  | .ok _ =>
    match w.loggerInit with
    | .error e => .err (.EnvLogError e)
    | .ok _ =>
      match w.homeDir with
      | none => .err .HomeDirectoryError
      | some _home =>
        match w.apiKeyVar with
        | .error e => .err (.APIKeyError e)
        | .ok _key =>
          match retrieve_genre_and_convert_to_map w.genreTransport w.genreDecode with
          | .panicked => .panicked
          | .value genre_id_to_name =>
            match get_genre_id_by_name "Animation" genre_id_to_name with
            | .error e => .err e
            | .ok genre_animation_id =>
              match (retrieve_all_upcoming_movies
                  (retrieve_upcoming_movies_by_page w.pageTransport w.pageDecode)).2 with
              | .error _ => .panicked
              | .ok (upcoming_movies, _min_date, _max_date) =>
                let animation_movies :=
                  get_upcoming_movies_by_genre_id genre_animation_id upcoming_movies
                match load_opened_movie_set w.dataFile with
                | .error e => .err e
                | .ok opened_movie_set =>
                  let after := process_found_movies animation_movies genre_id_to_name
                    opened_movie_set
                  match save_opened_movie_set (after.2.sort (· ≤ ·)) w.createResult
                      w.flushResult with
                  | .error e => .err e
                  | .ok _ => .ok

/-- Embedding of `main` (src/main.rs lines 140-149): exit 0 on success, exit
1 on a reported error; a panic aborts the process, which the OS reports as
exit status 101, bypassing the match in `main`. -/
def main_exit (w : World) : Nat :=
  match process w with
  | .ok => 0
  | .err _ => 1
  | .panicked => 101

/-- A world where every collaborator succeeds: one genre (Animation, id 16),
one upcoming page with one animation movie, no data file yet. -/
def okWorld : World :=
  { reactorInit := .ok (), loggerInit := .ok (), homeDir := some "/home/user",
    apiKeyVar := .ok "api-key", genreTransport := .ok "genres-body",
    genreDecode := sampleGenreDecode,
    pageTransport := fun p => .ok ("body" ++ toString p),
    pageDecode := okPageDecode, dataFile := .absent,
    createResult := .ok (), flushResult := .ok () }

/-- The same world but the genre-catalog transport call fails. -/
def genreFailWorld : World :=
  { okWorld with genreTransport := .error "connection refused" }

/-- The same world but every upcoming-page transport call fails. -/
def pageFailWorld : World :=
  { okWorld with pageTransport := fun _ => .error "connection reset" }

/-! ## Helper lemmas -/

/-- Deserialisation of a cons cell succeeds when both parts do. -/
lemma parseIds_cons (x : Json) (xs : List Json) (n : Nat) (ns : List Nat)
    (hj : jsonToId x = .ok n) (hrest : parseIds xs = .ok ns) :
    parseIds (x :: xs) = .ok (n :: ns) := by
  simp only [parseIds]
  rw [hj, hrest]

/-- A JSON number holding a value below 2^32 deserialises to that id. -/
lemma jsonToId_nat (a : Nat) (ha : a < 4294967296) :
    jsonToId (Json.num (a : Int)) = .ok a := by
  have hcond : (0 : Int) ≤ (a : Int) ∧ ((a : Int) : Int) < 4294967296 := by
    refine ⟨Int.natCast_nonneg a, ?_⟩
    exact_mod_cast ha
  simp only [jsonToId, if_pos hcond, Int.toNat_ofNat]

/-- Encoding each id below 2^32 as a JSON number deserialises back to the
same list of ids. -/
lemma parseIds_map_num (l : List Nat) (h : ∀ i ∈ l, i < 4294967296) :
    parseIds (l.map fun (n : Nat) => Json.num (n : Int)) = .ok l := by
  induction l with
  | nil => rfl
  | cons a as ih =>
    rw [List.map_cons]
    exact parseIds_cons _ _ _ _ (jsonToId_nat a (h a (List.mem_cons_self a as)))
      (ih (fun i hi => h i (List.mem_cons_of_mem a hi)))

/-- Deserialising the encoded iteration order of a set yields that set. -/
lemma parseIdSet_encode (l : List Nat) (h : ∀ i ∈ l, i < 4294967296) :
    parseIdSet (encodeIdSet l) = .ok l.toFinset := by
  simp only [parseIdSet, encodeIdSet, parseIds_map_num l h, Except.map]

/-- The match used by the genre filter is membership of the genre id. -/
lemma genre_filter_pred (g : Nat) (m : Movie) :
    (match m.genre_ids.find? (fun i => i == g) with
     | some _ => true
     | none => false) = true ↔ g ∈ m.genre_ids := by
  rw [show (match m.genre_ids.find? (fun i => i == g) with
      | some _ => true
      | none => false) = (m.genre_ids.find? (fun i => i == g)).isSome from by
    cases m.genre_ids.find? (fun i => i == g) <;> rfl]
  rw [List.find?_isSome]
  simp

/-! ## Claims about the seen-set store -/

/-- C7: loading from a path with no file returns the empty set and is not an
error; loading from a file whose content does not deserialise as a set of
ids fails with the persisted-state (deserialisation) error and never
returns a set. -/
theorem load_missing_empty_and_corrupt_errors :
    load_opened_movie_set .absent = .ok ∅ ∧
    ∀ c e, parseIdSet c = .error e →
      load_opened_movie_set (.file c) = .error (.SerdeJsonDeserializeError e) := by
  refine ⟨rfl, fun c e h => ?_⟩
  simp only [load_opened_movie_set, h]

/-- Witness for C7: a file holding the JSON string "oops" is corrupt and
load fails on it, while the absent path loads as the empty set. -/
theorem load_missing_empty_and_corrupt_errors_witness :
    load_opened_movie_set .absent = .ok ∅ ∧
    load_opened_movie_set (.file (.json (.str "oops"))) =
      .error (.SerdeJsonDeserializeError "invalid type: expected a sequence") :=
  ⟨load_missing_empty_and_corrupt_errors.1,
   load_missing_empty_and_corrupt_errors.2 (.json (.str "oops"))
     "invalid type: expected a sequence" rfl⟩

/-- C9: saving a seen set (listed in any iteration order) and loading the
resulting file yields a set equal to the saved one, for any set of u32 ids
including the empty set. -/
theorem save_load_roundtrip (s : Finset Nat) (iter : List Nat)
    (horder : iter.toFinset = s) (hbound : ∀ i ∈ iter, i < 4294967296) :
    save_opened_movie_set iter (.ok ()) (.ok ()) = .ok (.file (encodeIdSet iter)) ∧
    load_opened_movie_set (.file (encodeIdSet iter)) = .ok s := by
  refine ⟨rfl, ?_⟩
  simp only [load_opened_movie_set, parseIdSet_encode iter hbound, horder]

/-- Witness for C9: the round trip at the concrete set containing 100 and 3,
and at the empty set. -/
theorem save_load_roundtrip_witness :
    (save_opened_movie_set [100, 3] (.ok ()) (.ok ()) = .ok (.file (encodeIdSet [100, 3])) ∧
     load_opened_movie_set (.file (encodeIdSet [100, 3])) = .ok ({100, 3} : Finset Nat)) ∧
    (save_opened_movie_set [] (.ok ()) (.ok ()) = .ok (.file (encodeIdSet [])) ∧
     load_opened_movie_set (.file (encodeIdSet [])) = .ok (∅ : Finset Nat)) :=
  ⟨save_load_roundtrip {100, 3} [100, 3] (by decide) (by decide),
   save_load_roundtrip ∅ [] (by decide) (by decide)⟩

/-- C10: loading from a path that exists but is not a regular file (the
source guards with `is_file`) returns the empty set, not an error. -/
theorem load_on_directory_returns_empty_set :
    load_opened_movie_set .directory = .ok ∅ := rfl

/-! ## Claim about the genre filter -/

/-- C8: a movie is in the filtered output iff it is an input movie whose
`genre_ids` contains the genre id; the output is a sublist of the input
(order preserved), and no input position is duplicated (counts never
increase). -/
theorem filter_by_genre_spec (g : Nat) (movies : List Movie) :
    (∀ m, m ∈ get_upcoming_movies_by_genre_id g movies ↔ m ∈ movies ∧ g ∈ m.genre_ids) ∧
    (get_upcoming_movies_by_genre_id g movies).Sublist movies ∧
    ∀ m, (get_upcoming_movies_by_genre_id g movies).count m ≤ movies.count m := by
  refine ⟨fun m => ?_, List.filter_sublist movies, fun m => (List.filter_sublist movies).count_le m⟩
  rw [get_upcoming_movies_by_genre_id, List.mem_filter, genre_filter_pred]

/-! ## String helper lemmas for the genre rendering -/

/-- Folding string append distributes over a prefix. -/
lemma foldl_append_hoist (l : List String) (s t : String) :
    l.foldl (· ++ ·) (s ++ t) = s ++ l.foldl (· ++ ·) t := by
  induction l generalizing t with
  | nil => rfl
  | cons b bs ih =>
    simp only [List.foldl_cons]
    rw [String.append_assoc, ih]

/-- Joining a cons splits as an append. -/
lemma join_cons (s : String) (l : List String) :
    String.join (s :: l) = s ++ String.join l := by
  show List.foldl (· ++ ·) ("" ++ s) l = s ++ List.foldl (· ++ ·) "" l
  have h1 : ("" ++ s) = (s ++ "") := by simp
  rw [h1, foldl_append_hoist]

/-- Unfolding of the intercalate loop. -/
lemma intercalate_go (sep a : String) (l : List String) :
    String.intercalate.go a sep l = a ++ String.join (l.map (fun t => sep ++ t)) := by
  induction l generalizing a with
  | nil =>
    show a = a ++ ""
    simp
  | cons b bs ih =>
    show String.intercalate.go (a ++ sep ++ b) sep bs = _
    rw [ih, List.map_cons, join_cons]
    simp only [String.append_assoc]

/-- Intercalating a nonempty list is head plus prefixed tail. -/
lemma intercalate_cons (s : String) (l : List String) :
    String.intercalate ", " (s :: l) = s ++ String.join (l.map (fun t => ", " ++ t)) := by
  show String.intercalate.go s ", " l = _
  exact intercalate_go ", " s l

/-- Joining separator-prefixed names of a nonempty list is a leading
separator plus the plain join. -/
lemma join_prefixed_of_ne_nil (l : List String) (h : l ≠ []) :
    String.join (l.map (fun t => ", " ++ t)) = ", " ++ String.intercalate ", " l := by
  cases l with
  | nil => exact absurd rfl h
  | cons s rest =>
    rw [List.map_cons, join_cons, intercalate_cons, ← String.append_assoc]

/-- Mapping then filtering by the identity is a plain filterMap. -/
lemma filterMap_id_map (f : Nat → Option String) (t : List Nat) :
    (t.map f).filterMap id = t.filterMap f := by
  rw [List.filterMap_map]
  rfl

/-- The genre fold, once its first-element flag is cleared, appends each
resolved name with a ", " prefix. -/
lemma genre_fold_cleared (rs : List (Option String)) (acc : String) :
    (rs.foldl
      (fun a r =>
        match r with
        | some s => ((if a.2 then a.1 else a.1 ++ ", ") ++ s, false)
        | none => (a.1, false))
      (acc, false)).1 = acc ++ String.join ((rs.filterMap id).map (fun s => ", " ++ s)) := by
  induction rs generalizing acc with
  | nil =>
    show acc = acc ++ ""
    simp
  | cons r rest ih =>
    cases r with
    | none =>
      show (rest.foldl _ (acc, false)).1 =
        acc ++ String.join ((rest.filterMap id).map (fun s => ", " ++ s))
      exact ih acc
    | some s =>
      show (rest.foldl _ ((acc ++ ", ") ++ s, false)).1 =
        acc ++ String.join ((s :: rest.filterMap id).map (fun u => ", " ++ u))
      rw [ih, List.map_cons, join_cons]
      simp only [String.append_assoc]

/-- The genre fold over mapped lookups, with the flag cleared. -/
lemma genre_fold_map (f : Nat → Option String) (t : List Nat) (acc : String) :
    ((t.map f).foldl
      (fun a r =>
        match r with
        | some s => ((if a.2 then a.1 else a.1 ++ ", ") ++ s, false)
        | none => (a.1, false))
      (acc, false)).1 = acc ++ String.join ((t.filterMap f).map (fun s => ", " ++ s)) := by
  rw [genre_fold_cleared, filterMap_id_map]

/-- Closed form of the source rendering: the head id contributes its name
bare (or nothing), every later resolved name arrives with a ", " prefix. -/
lemma genre_render_closed_form (ids : List Nat) (genre_map : List (Nat × String)) :
    get_genre_name_from_ids ids genre_map =
      match ids with
      | [] => ""
      | h :: t =>
        (hashGet genre_map h).getD "" ++
          String.join ((t.filterMap (hashGet genre_map)).map (fun u => ", " ++ u)) := by
  cases ids with
  | nil => rfl
  | cons h t =>
    cases hh : hashGet genre_map h with
    | some s =>
      show (((h :: t).map (fun i => hashGet genre_map i)).foldl
          (fun a r =>
            match r with
            | some u => ((if a.2 then a.1 else a.1 ++ ", ") ++ u, false)
            | none => (a.1, false))
          ("", true)).1 =
        (hashGet genre_map h).getD "" ++
          String.join ((t.filterMap (hashGet genre_map)).map (fun u => ", " ++ u))
      simp only [List.map_cons, List.foldl_cons]
      rw [hh]
      exact genre_fold_map (fun i => hashGet genre_map i) t s
    | none =>
      show (((h :: t).map (fun i => hashGet genre_map i)).foldl
          (fun a r =>
            match r with
            | some u => ((if a.2 then a.1 else a.1 ++ ", ") ++ u, false)
            | none => (a.1, false))
          ("", true)).1 =
        (hashGet genre_map h).getD "" ++
          String.join ((t.filterMap (hashGet genre_map)).map (fun u => ", " ++ u))
      simp only [List.map_cons, List.foldl_cons]
      rw [hh]
      exact genre_fold_map (fun i => hashGet genre_map i) t ""

/-! ## Claim about the genre-name rendering -/

/-- Counterexample for C2: with the map resolving only the second id, the
rendered string has a leading ", " and differs from the plain join of the
resolved names. -/
theorem genre_render_leading_separator :
    get_genre_name_from_ids [99, 1] [(1, "Action")] = ", Action" ∧
    specGenreJoin [99, 1] [(1, "Action")] = "Action" ∧
    get_genre_name_from_ids [99, 1] [(1, "Action")] ≠
      specGenreJoin [99, 1] [(1, "Action")] :=
  ⟨by decide, by decide, by decide⟩

/-- C2 (amended): the rendered genre string is the ", "-join of the resolved
names whenever the first id resolves or no later id resolves; when the
first id does not resolve but a later one does, the join carries one
spurious leading ", ". -/
theorem genre_render_amended (ids : List Nat) (genre_map : List (Nat × String)) :
    get_genre_name_from_ids ids genre_map =
      match ids with
      | [] => specGenreJoin [] genre_map
      | h :: t =>
        if (hashGet genre_map h).isSome ∨ t.filterMap (hashGet genre_map) = [] then
          specGenreJoin (h :: t) genre_map
        else
          ", " ++ specGenreJoin (h :: t) genre_map := by
  rw [genre_render_closed_form]
  cases ids with
  | nil => rfl
  | cons h t =>
    show (hashGet genre_map h).getD "" ++
        String.join ((t.filterMap (hashGet genre_map)).map (fun u => ", " ++ u)) =
      if (hashGet genre_map h).isSome ∨ t.filterMap (hashGet genre_map) = [] then
        specGenreJoin (h :: t) genre_map
      else ", " ++ specGenreJoin (h :: t) genre_map
    cases hh : hashGet genre_map h with
    | some s =>
      rw [if_pos (Or.inl (by rfl))]
      show s ++ String.join ((t.filterMap (hashGet genre_map)).map (fun u => ", " ++ u)) =
        specGenreJoin (h :: t) genre_map
      rw [specGenreJoin.eq_def, List.filterMap_cons, hh, intercalate_cons]
    | none =>
      show ("" : String) ++
          String.join ((t.filterMap (hashGet genre_map)).map (fun u => ", " ++ u)) = _
      have hnil : ("" : String) ++
          String.join ((t.filterMap (hashGet genre_map)).map (fun u => ", " ++ u)) =
          String.join ((t.filterMap (hashGet genre_map)).map (fun u => ", " ++ u)) := by
        simp
      rw [hnil]
      have hspec : specGenreJoin (h :: t) genre_map =
          String.intercalate ", " (t.filterMap (hashGet genre_map)) := by
        rw [specGenreJoin.eq_def, List.filterMap_cons, hh]
      by_cases hres : t.filterMap (hashGet genre_map) = []
      · rw [if_pos (Or.inr hres), hres, hspec, hres]
        rfl
      · rw [if_neg ?_, hspec]
        · exact join_prefixed_of_ne_nil _ hres
        · intro hor
          rcases hor with hsome | hnil2
          · simp at hsome
          · exact hres hnil2

/-! ## Notifier lemmas -/

/-- Step equation of the notifier loop. -/
lemma pfm_cons (m : Movie) (ms : List Movie) (gm : List (Nat × String)) (opened : Finset Nat) :
    process_found_movies (m :: ms) gm opened =
      if m.id ∈ opened then
        (Event.summary m.title (get_genre_name_from_ids m.genre_ids gm) m.release_date
            (movieUrl m.id) :: Event.alreadyOpened ::
          (process_found_movies ms gm opened).1,
         (process_found_movies ms gm opened).2)
      else
        (Event.summary m.title (get_genre_name_from_ids m.genre_ids gm) m.release_date
            (movieUrl m.id) :: Event.launch m.id (movieUrl m.id) ::
          (process_found_movies ms gm (insert m.id opened)).1,
         (process_found_movies ms gm (insert m.id opened)).2) := by
  show (if m.id ∈ opened then _ else _) = _
  split <;> rfl

/-- A summary event is not a launch. -/
lemma countLaunch_cons_summary (a b c d : String) (evs : List Event) (i : Nat) :
    countLaunch (Event.summary a b c d :: evs) i = countLaunch evs i := by
  simp [countLaunch, List.countP_cons]

/-- An already-opened indicator is not a launch. -/
lemma countLaunch_cons_already (evs : List Event) (i : Nat) :
    countLaunch (Event.alreadyOpened :: evs) i = countLaunch evs i := by
  simp [countLaunch, List.countP_cons]

/-- A launch event counts when its id matches. -/
lemma countLaunch_cons_launch (j : Nat) (u : String) (evs : List Event) (i : Nat) :
    countLaunch (Event.launch j u :: evs) i =
      countLaunch evs i + if j = i then 1 else 0 := by
  simp [countLaunch, List.countP_cons]

/-- Final seen set of the notifier loop: the initial set united with the ids
of the processed movies. -/
lemma pfm_final_set (movies : List Movie) (gm : List (Nat × String)) (opened : Finset Nat) :
    (process_found_movies movies gm opened).2 =
      opened ∪ (movies.map Movie.id).toFinset := by
  induction movies generalizing opened with
  | nil => simp [process_found_movies]
  | cons m ms ih =>
    rw [pfm_cons]
    by_cases hm : m.id ∈ opened
    · rw [if_pos hm]
      show (process_found_movies ms gm opened).2 = _
      rw [ih, List.map_cons, List.toFinset_cons, Finset.union_insert,
        Finset.insert_eq_self.mpr (Finset.mem_union_left _ hm)]
    · rw [if_neg hm]
      show (process_found_movies ms gm (insert m.id opened)).2 = _
      rw [ih, List.map_cons, List.toFinset_cons, Finset.union_insert, Finset.insert_union]

/-- Launch count of the notifier loop: one launch for an id of a processed
movie not already seen, none otherwise. -/
lemma pfm_count (movies : List Movie) (gm : List (Nat × String)) (opened : Finset Nat)
    (i : Nat) :
    countLaunch (process_found_movies movies gm opened).1 i =
      if i ∈ opened then 0 else if i ∈ movies.map Movie.id then 1 else 0 := by
  induction movies generalizing opened with
  | nil => simp [process_found_movies, countLaunch]
  | cons m ms ih =>
    rw [pfm_cons]
    by_cases hm : m.id ∈ opened
    · rw [if_pos hm]
      show countLaunch (_ :: _ :: (process_found_movies ms gm opened).1) i = _
      rw [countLaunch_cons_summary, countLaunch_cons_already, ih]
      by_cases hi : i ∈ opened
      · simp [hi]
      · have hne : ¬(i = m.id) := fun h => hi (h ▸ hm)
        simp [hi, List.map_cons, List.mem_cons, hne]
    · rw [if_neg hm]
      show countLaunch (_ :: _ :: (process_found_movies ms gm (insert m.id opened)).1) i = _
      rw [countLaunch_cons_summary, countLaunch_cons_launch, ih]
      by_cases him : i = m.id
      · subst him
        simp [hm, List.map_cons]
      · have hmem : (i ∈ insert m.id opened) ↔ (i ∈ opened) := by
          simp [Finset.mem_insert, him]
        rw [if_congr hmem rfl rfl]
        by_cases hi : i ∈ opened
        · simp [hi, Ne.symm him]
        · simp [hi, List.map_cons, List.mem_cons, him, Ne.symm him]

/-! ## Claim about the notifier -/

/-- C6: for each movie in order, a movie whose id is already seen yields the
already-opened indicator, no launch and an unchanged set, and an unseen one
yields a launch of its URL and an inserted id; each id is launched at most
once per run (never when already seen), ids are never removed, and the
final set is the initial set plus the processed ids. -/
theorem notifier_spec (movies : List Movie) (gm : List (Nat × String)) (opened : Finset Nat) :
    ((process_found_movies movies gm opened).2 =
      opened ∪ (movies.map Movie.id).toFinset) ∧
    (opened ⊆ (process_found_movies movies gm opened).2) ∧
    (∀ i, countLaunch (process_found_movies movies gm opened).1 i =
      if i ∈ opened then 0 else if i ∈ movies.map Movie.id then 1 else 0) ∧
    (∀ (m : Movie) (ms : List Movie),
      process_found_movies (m :: ms) gm opened =
        if m.id ∈ opened then
          (Event.summary m.title (get_genre_name_from_ids m.genre_ids gm) m.release_date
              (movieUrl m.id) :: Event.alreadyOpened ::
            (process_found_movies ms gm opened).1,
           (process_found_movies ms gm opened).2)
        else
          (Event.summary m.title (get_genre_name_from_ids m.genre_ids gm) m.release_date
              (movieUrl m.id) :: Event.launch m.id (movieUrl m.id) ::
            (process_found_movies ms gm (insert m.id opened)).1,
           (process_found_movies ms gm (insert m.id opened)).2)) := by
  refine ⟨pfm_final_set movies gm opened, ?_, pfm_count movies gm opened,
    fun m ms => pfm_cons m ms gm opened⟩
  rw [pfm_final_set movies gm opened]
  exact Finset.subset_union_left

/-! ## Fetcher lemmas -/

/-- A list is a prefix of itself under the boolean prefix test. -/
lemma isPrefixOf_self (l : List Char) : l.isPrefixOf l = true := by
  induction l with
  | nil => rfl
  | cons a as ih => simp [List.isPrefixOf, ih]

/-- A string contains its own suffix. -/
lemma strContains_append (a b : String) : strContains (a ++ b) b = true := by
  unfold strContains
  rw [List.any_eq_true]
  refine ⟨a.data.length, ?_, ?_⟩
  · rw [List.mem_range, String.data_append, List.length_append]
    omega
  · rw [String.data_append, List.drop_left]
    exact isPrefixOf_self b.data

/-- The transport error message of a page names that page. -/
lemma identifies_transport_msg (p : Nat) : msgIdentifiesPage (pageTransportErrMsg p) p :=
  strContains_append "Error: cannot get upcoming movies for page " (toString p)

/-- Page fetch with a failing transport call. -/
lemma by_page_transport_err (t : Nat → Except String String)
    (d : String → Except String UpComingMovieResponse) (p : Nat) (e : String)
    (h : t p = .error e) :
    retrieve_upcoming_movies_by_page t d p =
      .error (.RestClientError (pageTransportErrMsg p) e) := by
  unfold retrieve_upcoming_movies_by_page
  rw [h]

/-- Page fetch with a successful transport call but undecodable body. -/
lemma by_page_decode_err (t : Nat → Except String String)
    (d : String → Except String UpComingMovieResponse) (p : Nat) (raw e : String)
    (ht : t p = .ok raw) (hd : d raw = .error e) :
    retrieve_upcoming_movies_by_page t d p = .error (.RestClientError pageParseErrMsg e) := by
  unfold retrieve_upcoming_movies_by_page
  rw [ht]
  show (match d raw with
    | Except.error e => Except.error (AppError.RestClientError pageParseErrMsg e)
    | Except.ok r => Except.ok r) = _
  rw [hd]

/-- Loop equation: successful page. -/
lemma fetchLoop_cons_ok (fetch : Nat → Except AppError UpComingMovieResponse)
    (p : Nat) (ps : List Nat) (acc : List Movie) (r : UpComingMovieResponse)
    (h : fetch p = .ok r) :
    fetchLoop fetch (p :: ps) acc =
      (p :: (fetchLoop fetch ps (acc ++ r.results)).1,
       (fetchLoop fetch ps (acc ++ r.results)).2) := by
  simp only [fetchLoop]
  rw [h]

/-- Loop equation: failing page. -/
lemma fetchLoop_cons_err (fetch : Nat → Except AppError UpComingMovieResponse)
    (p : Nat) (ps : List Nat) (acc : List Movie) (E : AppError)
    (h : fetch p = .error E) :
    fetchLoop fetch (p :: ps) acc = ([p], .error E) := by
  simp only [fetchLoop]
  rw [h]

/-- When every page of the list succeeds, the loop visits all of them and
appends their results in order. -/
lemma fetchLoop_all_ok (fetch : Nat → Except AppError UpComingMovieResponse)
    (resp : Nat → UpComingMovieResponse) :
    ∀ (ps : List Nat) (acc : List Movie), (∀ p ∈ ps, fetch p = .ok (resp p)) →
      fetchLoop fetch ps acc =
        (ps, .ok (acc ++ (ps.map (fun p => (resp p).results)).flatten)) := by
  intro ps
  induction ps with
  | nil =>
    intro acc _
    simp [fetchLoop]
  | cons p ps ih =>
    intro acc h
    rw [fetchLoop_cons_ok fetch p ps acc (resp p) (h p (List.mem_cons_self p ps))]
    rw [ih (acc ++ (resp p).results) (fun q hq => h q (List.mem_cons_of_mem p hq))]
    rw [List.map_cons, List.flatten_cons, List.append_assoc]

/-- When the pages before `p` succeed and `p` fails, the loop stops at `p`
with the error and no aggregate. -/
lemma fetchLoop_fails (fetch : Nat → Except AppError UpComingMovieResponse)
    (resp : Nat → UpComingMovieResponse) (E : AppError) (p : Nat) (ps2 : List Nat) :
    ∀ (ps1 : List Nat) (acc : List Movie), (∀ q ∈ ps1, fetch q = .ok (resp q)) →
      fetch p = .error E →
      fetchLoop fetch (ps1 ++ p :: ps2) acc = (ps1 ++ [p], .error E) := by
  intro ps1
  induction ps1 with
  | nil =>
    intro acc _ hfail
    rw [List.nil_append, List.nil_append]
    exact fetchLoop_cons_err fetch p ps2 acc E hfail
  | cons q qs ih =>
    intro acc h hfail
    rw [List.cons_append]
    rw [fetchLoop_cons_ok fetch q (qs ++ p :: ps2) acc (resp q) (h q (List.mem_cons_self q qs))]
    rw [ih (acc ++ (resp q).results) (fun x hx => h x (List.mem_cons_of_mem q hx)) hfail]
    rfl

/-- Equation of the aggregate fetch when page 1 succeeds. -/
lemma retrieve_all_eq_of_first_ok (fetch : Nat → Except AppError UpComingMovieResponse)
    (first : UpComingMovieResponse) (h1 : fetch 1 = .ok first) :
    retrieve_all_upcoming_movies fetch =
      (1 :: (fetchLoop fetch (List.range' 2 (first.total_pages - 1)) first.results).1,
       ((fetchLoop fetch (List.range' 2 (first.total_pages - 1)) first.results).2).map
         (fun movies => (movies, first.dates.minimum, first.dates.maximum))) := by
  unfold retrieve_all_upcoming_movies
  rw [h1]

/-- Equation of the aggregate fetch when page 1 fails. -/
lemma retrieve_all_eq_of_first_err (fetch : Nat → Except AppError UpComingMovieResponse)
    (E : AppError) (h1 : fetch 1 = .error E) :
    retrieve_all_upcoming_movies fetch = ([1], .error E) := by
  unfold retrieve_all_upcoming_movies
  rw [h1]

/-- Decomposition of the page range 1..N as page 1 then pages 2..N. -/
lemma range'_one_cons (p : Nat) (hp : 1 ≤ p) :
    List.range' 1 p = 1 :: List.range' 2 (p - 1) := by
  cases p with
  | zero => omega
  | succ n =>
    rw [List.range'_succ]
    simp

/-- Decomposition of the remaining-page range at a failing page `p`. -/
lemma range'_split_at (p N : Nat) (h2 : 2 ≤ p) (hpN : p ≤ N) :
    List.range' 2 (N - 1) = List.range' 2 (p - 2) ++ p :: List.range' (p + 1) (N - p) := by
  have hmn : N - 1 = (N - p + 1) + (p - 2) := by omega
  have hstart : 2 + 1 * (p - 2) = p := by omega
  rw [hmn, ← List.range'_append, hstart, List.range'_succ]

/-- Tail of the request log at a failing page `p`. -/
lemma range'_log_eq (p : Nat) (h2 : 2 ≤ p) :
    List.range' 2 (p - 2) ++ [p] = List.range' 2 (p - 1) := by
  have hmn : p - 1 = 1 + (p - 2) := by omega
  have hstart : 2 + 1 * (p - 2) = p := by omega
  rw [hmn, ← List.range'_append, hstart, List.range'_one]

/-- A run that fails at page `p`, all earlier pages succeeding, requests
exactly pages 1..p and returns just the error. -/
lemma retrieve_all_fails_at (fetch : Nat → Except AppError UpComingMovieResponse)
    (p N : Nat) (resp : Nat → UpComingMovieResponse) (E : AppError)
    (hq : ∀ q, 1 ≤ q → q < p → fetch q = .ok (resp q))
    (hbound : 2 ≤ p → (resp 1).total_pages = N ∧ p ≤ N)
    (hp : 1 ≤ p)
    (hfail : fetch p = .error E) :
    retrieve_all_upcoming_movies fetch = (List.range' 1 p, .error E) := by
  by_cases h2 : 2 ≤ p
  · obtain ⟨hN, hpN⟩ := hbound h2
    have h1 : fetch 1 = .ok (resp 1) := hq 1 le_rfl (by omega)
    rw [retrieve_all_eq_of_first_ok fetch (resp 1) h1, hN,
      range'_split_at p N h2 hpN,
      fetchLoop_fails fetch resp E p (List.range' (p + 1) (N - p)) (List.range' 2 (p - 2))
        (resp 1).results
        (fun q hqmem => by
          have hb := List.mem_range'_1.mp hqmem
          exact hq q (by omega) (by omega))
        hfail]
    rw [range'_log_eq p h2, range'_one_cons p hp]
    rfl
  · have hp1 : p = 1 := by omega
    subst hp1
    rw [retrieve_all_eq_of_first_err fetch E hfail]
    rfl

/-! ## Claim about the happy-path pagination -/

/-- C4: when page 1 reports `total_pages = N` and all pages succeed, the
fetcher requests exactly pages 1..N in order, aggregates the page results
in page order, and takes the date range verbatim from page 1; for N = 1 the
continuation loop contributes nothing and only page 1 is requested. -/
theorem fetch_all_pages_spec (fetch : Nat → Except AppError UpComingMovieResponse)
    (first : UpComingMovieResponse) (resp : Nat → UpComingMovieResponse) (N : Nat)
    (h1 : fetch 1 = .ok first) (hN : first.total_pages = N) (hpos : 1 ≤ N)
    (hall : ∀ p, 2 ≤ p → p ≤ N → fetch p = .ok (resp p)) :
    retrieve_all_upcoming_movies fetch =
      (List.range' 1 N,
       .ok (first.results ++ ((List.range' 2 (N - 1)).map (fun p => (resp p).results)).flatten,
         first.dates.minimum, first.dates.maximum)) := by
  rw [retrieve_all_eq_of_first_ok fetch first h1, hN]
  rw [fetchLoop_all_ok fetch resp (List.range' 2 (N - 1)) first.results
    (fun p hp => by
      have hb := List.mem_range'_1.mp hp
      exact hall p (by omega) (by omega))]
  rw [range'_one_cons N hpos]
  rfl

/-- Witness for C4: the sample fetch oracle with two pages. -/
theorem fetch_all_pages_spec_witness :
    retrieve_all_upcoming_movies sampleFetch =
      (List.range' 1 2,
       .ok ((samplePage 1).results ++
           ((List.range' 2 1).map (fun p => (samplePage p).results)).flatten,
         (samplePage 1).dates.minimum, (samplePage 1).dates.maximum)) :=
  fetch_all_pages_spec sampleFetch (samplePage 1) samplePage 2 rfl rfl (by decide)
    (fun p _ _ => rfl)

/-! ## Claim about the failing-page behaviour -/

/-- Counterexample for C5: when the body of page 2 cannot be decoded, the
aggregate fetch fails with the fixed parse message, which does not name
page 2. -/
theorem page_error_context_lacks_page :
    (retrieve_all_upcoming_movies
        (retrieve_upcoming_movies_by_page cexTransport cexDecode)).2 =
      .error (.RestClientError pageParseErrMsg "expected struct UpComingMovieResponse") ∧
    ¬ msgIdentifiesPage pageParseErrMsg 2 := by
  refine ⟨rfl, ?_⟩
  intro h
  have h2 : strContains pageParseErrMsg (toString 2) = true := h
  exact absurd h2 (by decide)

/-- C5 (amended): a failure on page p aborts the fetch with a
`RestClientError`, requests no page beyond p, and returns no partial
aggregate; a transport failure carries a message naming page p, while an
undecodable body carries the fixed parse message (which names no page). -/
theorem page_failure_amended :
    (∀ (t : Nat → Except String String) (d : String → Except String UpComingMovieResponse)
        (p N : Nat) (resp : Nat → UpComingMovieResponse) (e : String),
      (∀ q, 1 ≤ q → q < p → retrieve_upcoming_movies_by_page t d q = .ok (resp q)) →
      (2 ≤ p → (resp 1).total_pages = N ∧ p ≤ N) → 1 ≤ p →
      t p = .error e →
      retrieve_all_upcoming_movies (retrieve_upcoming_movies_by_page t d) =
        (List.range' 1 p, .error (.RestClientError (pageTransportErrMsg p) e)) ∧
      msgIdentifiesPage (pageTransportErrMsg p) p) ∧
    (∀ (t : Nat → Except String String) (d : String → Except String UpComingMovieResponse)
        (p N : Nat) (resp : Nat → UpComingMovieResponse) (raw e : String),
      (∀ q, 1 ≤ q → q < p → retrieve_upcoming_movies_by_page t d q = .ok (resp q)) →
      (2 ≤ p → (resp 1).total_pages = N ∧ p ≤ N) → 1 ≤ p →
      t p = .ok raw → d raw = .error e →
      retrieve_all_upcoming_movies (retrieve_upcoming_movies_by_page t d) =
        (List.range' 1 p, .error (.RestClientError pageParseErrMsg e))) := by
  constructor
  · intro t d p N resp e hq hbound hp hfail
    refine ⟨?_, identifies_transport_msg p⟩
    exact retrieve_all_fails_at (retrieve_upcoming_movies_by_page t d) p N resp
      (.RestClientError (pageTransportErrMsg p) e) hq hbound hp
      (by_page_transport_err t d p e hfail)
  · intro t d p N resp raw e hq hbound hp ht hd
    exact retrieve_all_fails_at (retrieve_upcoming_movies_by_page t d) p N resp
      (.RestClientError pageParseErrMsg e) hq hbound hp
      (by_page_decode_err t d p raw e ht hd)

/-- Witness for the amended C5: a transport failure on page 2 and an
undecodable body on page 2, both with page 1 succeeding. -/
theorem page_failure_amended_witness :
    (retrieve_all_upcoming_movies
        (retrieve_upcoming_movies_by_page failTransport2 cexDecode) =
      (List.range' 1 2,
       .error (.RestClientError (pageTransportErrMsg 2) "connection reset")) ∧
     msgIdentifiesPage (pageTransportErrMsg 2) 2) ∧
    retrieve_all_upcoming_movies
        (retrieve_upcoming_movies_by_page cexTransport cexDecode) =
      (List.range' 1 2,
       .error (.RestClientError pageParseErrMsg "expected struct UpComingMovieResponse")) := by
  constructor
  · exact page_failure_amended.1 failTransport2 cexDecode 2 2 (fun _ => cexPage1)
      "connection reset"
      (fun q h1 h2 => by
        have hq1 : q = 1 := by omega
        subst hq1
        rfl)
      (fun _ => ⟨rfl, by omega⟩) (by omega) rfl
  · exact page_failure_amended.2 cexTransport cexDecode 2 2 (fun _ => cexPage1)
      "body2" "expected struct UpComingMovieResponse"
      (fun q h1 h2 => by
        have hq1 : q = 1 := by omega
        subst hq1
        rfl)
      (fun _ => ⟨rfl, by omega⟩) (by omega) rfl rfl

/-! ## Claims about the genre loader and the exit-status policy -/

/-- C3: the genre loader does not return a `RestClientError` value on
failure; both a failed transport call and an undecodable body make it
panic (the source unwraps both results), while success yields the id-name
map built from the fetched table. -/
theorem genre_loader_panics_on_failure :
    retrieve_genre_and_convert_to_map (.error "connection refused") sampleGenreDecode =
      .panicked ∧
    retrieve_genre_and_convert_to_map (.ok "garbage") sampleGenreDecode = .panicked ∧
    retrieve_genre_and_convert_to_map (.ok "genres-body") sampleGenreDecode =
      .value [(16, "Animation")] :=
  ⟨rfl, rfl, rfl⟩

/-- C1: the orchestrator does not map every stage failure to an exit status
of 1: a failed genre fetch or a failed upcoming-page fetch panics (the
process aborts with status 101, not 1), while a fully successful pipeline
exits 0. -/
theorem exit_status_policy_violated :
    process genreFailWorld = .panicked ∧
    main_exit genreFailWorld = 101 ∧
    process pageFailWorld = .panicked ∧
    main_exit pageFailWorld = 101 ∧
    process okWorld = .ok ∧
    main_exit okWorld = 0 ∧
    main_exit genreFailWorld ≠ 1 ∧
    main_exit pageFailWorld ≠ 1 :=
  ⟨rfl, rfl, rfl, rfl, rfl, rfl, by decide, by decide⟩

end MovieAlert
